import Mathlib

/-!
Verification of the NennerEngine launcher (`launch_dashboard.pyw`).

The script is straight-line Python; we embed it as a sequence of phase
functions over a `World` (ledger file, live processes, port owner),
parameterized by a `HostEnv` that fixes the outcome of every OS call the
script makes (file contents, spawn results, which kills fail, which removes
fail, ...).  Each phase returns the updated world, the list of observable OS
events it performed, and `some e` when an uncaught Python exception aborted
the script at that point.
-/

namespace NennerLauncher

/-- An OS process identifier as the script manipulates it: a Python `int`,
which may be negative when it was parsed from a hand-edited or corrupt
ledger (`os.kill` then simply fails and is swallowed). -/
abbrev Pid := Int

/-- The two children spawned by the launcher: `dashboard_proc` (line 78) and
`monitor_proc` (line 85). -/
inductive Child where
  | dashboard
  | monitor
deriving DecidableEq, Repr

/-- Observable OS actions the script performs, in program order. -/
inductive Event where
  /-- `os.kill(pid, 9)` attempt, line 43. -/
  | killPid (p : Pid)
  /-- successful `os.remove(PID_PATH)`, line 48 or line 110. -/
  | removeLedger
  /-- the powershell port-reclaim subprocess, lines 52-58. -/
  | portReclaim
  /-- `time.sleep(secs)`, line 61 or line 100. -/
  | sleep (secs : Nat)
  /-- `open(LOG_PATH, "a")`, line 75. -/
  | openLog
  /-- `subprocess.Popen(...)`, lines 78 and 85. -/
  | spawnEv (c : Child)
  /-- the `save_pids` ledger write, line 97 (called at line 66). -/
  | writeLedger
  /-- `webbrowser.open(...)`, line 101. -/
  | browserOpen
  /-- `dashboard_proc.wait()`, line 104. -/
  | waitPrimary
  /-- `monitor_proc.terminate()`, line 105. -/
  | terminateReq (c : Child)
  /-- `log_file.close()`, line 106. -/
  | closeLog
deriving DecidableEq, Repr

/-- Uncaught Python exceptions the script can die with. -/
inductive PyErr where
  /-- `os.remove(PID_PATH)` at line 48 raised (it is outside the `try`). -/
  | osRemoveErr
  /-- `subprocess.Popen` raised for the given child (lines 78 / 85). -/
  | spawnErr (c : Child)
  /-- `monitor_proc.terminate()` at line 105 raised. -/
  | termErr
  /-- `log_file.close()` at line 106 raised. -/
  | closeErr
deriving DecidableEq, Repr

/-- Host state visible to the script: the PID ledger file (`none` = absent,
`some lines` = its lines, each line being one newline-terminated record with
the terminator stripped), the set of live processes, and the process, if any,
currently bound to port 8050. -/
structure World where
  ledger : Option (List String)
  alive : List Pid
  portOwner : Option Pid
deriving DecidableEq, Repr

/-- Fixes the outcome of every OS interaction of one launcher run:
initial ledger content and live stale processes, which `os.kill` calls raise,
the port-8050 owner, whether the powershell port reclaim raises, whether the
`os.remove` inside `kill_stale` raises, the PIDs `Popen` produces (`none` =
the spawn raises), the status `dashboard_proc.wait()` returns, whether
`monitor_proc.terminate()` raises, whether the monitor actually exits after
the terminate request, whether `log_file.close()` raises, and whether the
final `os.remove` raises. -/
structure HostEnv where
  ledger0 : Option (List String)
  stale : List Pid
  killFails : Pid → Bool
  portOwner0 : Option Pid
  portCmdFails : Bool
  reapRemoveFails : Bool
  dashboardPid : Option Pid
  monitorPid : Option Pid
  waitStatus : Int
  termFails : Bool
  monitorExits : Bool
  closeFails : Bool
  finalRemoveFails : Bool

/-- The world the script starts in. -/
def initWorld (env : HostEnv) : World :=
  { ledger := env.ledger0, alive := env.stale, portOwner := env.portOwner0 }

/-- Result of running a phase of the script: final world, the events
performed, and the uncaught exception, if one aborted the phase. -/
structure Step where
  world : World
  trace : List Event
  err : Option PyErr
deriving DecidableEq, Repr

/-- Sequencing of script phases: an uncaught exception aborts the rest of the
script. -/
def Step.seq (s : Step) (f : World → Step) : Step :=
  match s.err with
  | some _ => s
  | none =>
      let t := f s.world
      { world := t.world, trace := s.trace ++ t.trace, err := t.err }

/-- The characters Python's `str.isspace` (and hence `str.strip()` with no
argument, and `int`'s own stripping) treats as whitespace: ASCII
whitespace and separators plus the Unicode space characters. -/
def pyIsSpace (c : Char) : Bool :=
  let n := c.toNat
  decide ((9 ≤ n ∧ n ≤ 13) ∨ n = 28 ∨ n = 29 ∨ n = 30 ∨ n = 31 ∨ n = 32 ∨
    n = 133 ∨ n = 160 ∨ n = 5760 ∨ (8192 ≤ n ∧ n ≤ 8202) ∨ n = 8232 ∨
    n = 8233 ∨ n = 8239 ∨ n = 8287 ∨ n = 12288)

/-- First code points of the decimal-digit (general category Nd) runs of
Unicode 15.0, the table CPython uses: each run is the ten consecutive code
points base..base+9 carrying digit values 0..9.  These are exactly the
characters Python's `int` accepts as digits (ASCII, Arabic-Indic,
Devanagari, fullwidth, mathematical, and the other decimal scripts). -/
def ndBases : List Nat :=
  [0x30, 0x660, 0x6F0, 0x7C0, 0x966, 0x9E6, 0xA66, 0xAE6, 0xB66, 0xBE6,
   0xC66, 0xCE6, 0xD66, 0xDE6, 0xE50, 0xED0, 0xF20, 0x1040, 0x1090, 0x17E0,
   0x1810, 0x1946, 0x19D0, 0x1A80, 0x1A90, 0x1B50, 0x1BB0, 0x1C40, 0x1C50,
   0xA620, 0xA8D0, 0xA900, 0xA9D0, 0xA9F0, 0xAA50, 0xABF0, 0xFF10,
   0x104A0, 0x10D30, 0x11066, 0x110F0, 0x11136, 0x111D0, 0x112F0, 0x11450,
   0x114D0, 0x11650, 0x116C0, 0x11730, 0x118E0, 0x11950, 0x11C50, 0x11D50,
   0x11DA0, 0x11F50, 0x16A60, 0x16AC0, 0x16B50,
   0x1D7CE, 0x1D7D8, 0x1D7E2, 0x1D7EC, 0x1D7F6,
   0x1E140, 0x1E2F0, 0x1E4F0, 0x1E950, 0x1FBF0]

/-- The decimal value of a character, `none` when it is not a decimal digit:
Python's per-character `Py_UNICODE_TODECIMAL`. -/
def pyDigitVal (c : Char) : Option Nat :=
  (ndBases.find? (fun b => decide (b ≤ c.toNat ∧ c.toNat ≤ b + 9))).map
    (fun b => c.toNat - b)

/-- Continuation of Python's decimal-numeral grammar after at least one
digit has been read: `digit ("_"? digit)*` — a single underscore is allowed
only between two digits (so no trailing or doubled underscore). -/
def pyDigitsRest : Nat → List Char → Option Nat
  | acc, [] => some acc
  | acc, c :: cs =>
      if c = '_' then
        match cs with
        | [] => none
        | c2 :: cs2 =>
            match pyDigitVal c2 with
            | some v => pyDigitsRest (10 * acc + v) cs2
            | none => none
      else
        match pyDigitVal c with
        | some v => pyDigitsRest (10 * acc + v) cs
        | none => none

/-- An unsigned Python decimal numeral: one or more digits with single
underscores allowed between digits. -/
def pyDigits (cs : List Char) : Option Nat :=
  match cs with
  | [] => none
  | c :: rest =>
      match pyDigitVal c with
      | some v => pyDigitsRest v rest
      | none => none

/-- Python's `int` on an already-stripped character sequence: an optional
single sign directly followed by a decimal numeral. -/
def pyInt? : List Char → Option Int
  | '+' :: rest => (pyDigits rest).map (fun n => (n : Int))
  | '-' :: rest => (pyDigits rest).map (fun n => -(n : Int))
  | cs => (pyDigits cs).map (fun n => (n : Int))

/-- Models `int(line.strip())` (line 41) on one ledger line: strip Python
whitespace from both ends, then parse an optionally signed decimal numeral
(Unicode 15.0 decimal digits, with single underscores allowed between
digits, exactly as Python's `int` accepts them); `none` when `int` raises
`ValueError`. -/
def parsePid (line : String) : Option Pid :=
  pyInt? (((line.data.dropWhile pyIsSpace).reverse.dropWhile pyIsSpace).reverse)

/-- One `os.kill(pid, 9)` (lines 42-45): the `OSError`/`ProcessLookupError`
is swallowed; on success the process dies (and releases the port if it held
it). -/
def killPid1 (env : HostEnv) (w : World) (pid : Pid) : World :=
  if env.killFails pid then w
  else
    { w with
      alive := w.alive.erase pid,
      portOwner := if w.portOwner = some pid then none else w.portOwner }

/-- The `for line in f` loop of `kill_stale` (lines 40-45): each line is
parsed with `int(line.strip())` and the pid killed; a malformed line raises
`ValueError`, which the outer `except Exception: pass` (lines 46-47)
catches, abandoning all remaining lines. -/
def killLoop (env : HostEnv) : List String → World → List Event × World
  | [], w => ([], w)
  | line :: rest, w =>
      match parsePid line with
      | none => ([], w)
      | some pid =>
          let r := killLoop env rest (killPid1 env w pid)
          (Event.killPid pid :: r.1, r.2)

/-- Lines 50-61 of `kill_stale`: run powershell to stop whatever process owns
port 8050 (any exception swallowed, lines 59-60), then `time.sleep(1)`. -/
def portPhase (env : HostEnv) (w : World) : World × List Event :=
  let w2 :=
    if env.portCmdFails then w
    else
      match w.portOwner with
      | none => w
      | some p => { w with alive := w.alive.erase p, portOwner := none }
  (w2, [Event.portReclaim, Event.sleep 1])

/-- `kill_stale` (lines 34-61): if the ledger file exists, kill each listed
pid then `os.remove(PID_PATH)` — the remove is OUTSIDE the `try` (line 48),
so its failure is an uncaught exception; then reclaim the port and sleep. -/
def killStale (env : HostEnv) (w : World) : Step :=
  match w.ledger with
  | none =>
      { world := (portPhase env w).1, trace := (portPhase env w).2, err := none }
  | some content =>
      let r := killLoop env content w
      if env.reapRemoveFails then
        { world := r.2, trace := r.1, err := some .osRemoveErr }
      else
        let w1r := { r.2 with ledger := none }
        { world := (portPhase env w1r).1,
          trace := r.1 ++ Event.removeLedger :: (portPhase env w1r).2,
          err := none }

/-- `save_pids` (lines 64-68) writes one line `f"{pid}\n"` per pid, in
argument order; each element of the result is one newline-terminated
record with its terminator stripped. -/
def savePids (pids : List Pid) : List String :=
  pids.map toString

/-- Lines 75-97: open the shared log sink, spawn the dashboard, spawn the
monitor, then `save_pids(dashboard_proc.pid, monitor_proc.pid)`.  Neither
`Popen` is inside a `try`, so a spawn failure is an uncaught exception and
nothing after it runs. -/
def spawnPhase (env : HostEnv) (w : World) : Step :=
  match env.dashboardPid with
  | none =>
      { world := w, trace := [Event.openLog], err := some (.spawnErr .dashboard) }
  | some d =>
      let w1 := { w with alive := d :: w.alive }
      match env.monitorPid with
      | none =>
          { world := w1,
            trace := [Event.openLog, Event.spawnEv .dashboard],
            err := some (.spawnErr .monitor) }
      | some m =>
          let w2 := { w1 with alive := m :: w1.alive }
          let w3 := { w2 with ledger := some (savePids [d, m]) }
          { world := w3,
            trace := [Event.openLog, Event.spawnEv .dashboard,
                      Event.spawnEv .monitor, Event.writeLedger],
            err := none }

/-- Lines 99-101: `time.sleep(3)` settle delay, then open the browser. -/
def readyPhase (w : World) : Step :=
  { world := w, trace := [Event.sleep 3, Event.browserOpen], err := none }

/-- Lines 104-112: block in `dashboard_proc.wait()` (the dashboard has exited
when it returns), send the monitor one `terminate()` request (no wait on the
monitor; whether it actually exits is up to the host), `log_file.close()`,
then a best-effort `os.remove(PID_PATH)` whose failure is swallowed
(lines 109-112).  `terminate` and `close` are not inside any `try`. -/
def waitTeardown (env : HostEnv) (w : World) : Step :=
  let wWait :=
    match env.dashboardPid with
    | some d => { w with alive := w.alive.erase d }
    | none => w
  if env.termFails then
    { world := wWait, trace := [Event.waitPrimary], err := some .termErr }
  else
    let wTerm :=
      match env.monitorPid with
      | some m =>
          if env.monitorExits then { wWait with alive := wWait.alive.erase m }
          else wWait
      | none => wWait
    if env.closeFails then
      { world := wTerm,
        trace := [Event.waitPrimary, Event.terminateReq .monitor],
        err := some .closeErr }
    else
      let removedEvs :=
        if env.finalRemoveFails then ([] : List Event)
        else
          match wTerm.ledger with
          | some _ => [Event.removeLedger]
          | none => []
      let wRem := if env.finalRemoveFails then wTerm else { wTerm with ledger := none }
      { world := wRem,
        trace := [Event.waitPrimary, Event.terminateReq .monitor, Event.closeLog]
                   ++ removedEvs,
        err := none }

/-- The `start()` portion of the session: reap stale instances (line 72),
then open the log and spawn both children and write the ledger
(lines 75-97). -/
def startPhase (env : HostEnv) : Step :=
  (killStale env (initWorld env)).seq (spawnPhase env)

/-- The whole script, lines 72-112. -/
def runScript (env : HostEnv) : Step :=
  ((startPhase env).seq readyPhase).seq (waitTeardown env)

/-- The exit code of the supervisor process itself: a Python script that runs
to the end exits 0; an uncaught exception makes the interpreter exit with
code 1. -/
def supervisorExit (env : HostEnv) : Nat :=
  match (runScript env).err with
  | some _ => 1
  | none => 0

/-- The Primary exit status obtained by the script: `dashboard_proc.wait()`
returns `env.waitStatus` when the script reaches line 104. -/
def primaryStatus (env : HostEnv) : Option Int :=
  if Event.waitPrimary ∈ (runScript env).trace then some env.waitStatus else none

end NennerLauncher

/-! ### Helper lemmas about the phases -/

namespace NennerLauncher

theorem seq_of_ok {s : Step} (f : World → Step) (h : s.err = none) :
    s.seq f = { world := (f s.world).world,
                trace := s.trace ++ (f s.world).trace,
                err := (f s.world).err } := by
  simp [Step.seq, h]

theorem seq_of_err {s : Step} (f : World → Step) {e : PyErr} (h : s.err = some e) :
    s.seq f = s := by
  simp [Step.seq, h]

theorem portPhase_fst_ledger (env : HostEnv) (w : World) :
    ((portPhase env w).1).ledger = w.ledger := by
  unfold portPhase
  cases hpc : env.portCmdFails <;> cases hpo : w.portOwner <;> simp

theorem portPhase_fst_of_no_owner (env : HostEnv) {w : World}
    (h : w.portOwner = none) : (portPhase env w).1 = w := by
  unfold portPhase
  cases hpc : env.portCmdFails <;> simp [h]

theorem portPhase_snd (env : HostEnv) (w : World) :
    (portPhase env w).2 = [Event.portReclaim, Event.sleep 1] := by
  unfold portPhase
  cases hpc : env.portCmdFails <;> cases hpo : w.portOwner <;> simp

theorem killPid1_ledger (env : HostEnv) (w : World) (pid : Pid) :
    (killPid1 env w pid).ledger = w.ledger := by
  unfold killPid1
  cases h : env.killFails pid <;> simp

theorem killLoop_snd_ledger (env : HostEnv) (ls : List String) (w : World) :
    ((killLoop env ls w).2).ledger = w.ledger := by
  induction ls generalizing w with
  | nil => simp [killLoop]
  | cons line rest ih =>
      cases hp : parsePid line with
      | none => simp [killLoop, hp]
      | some pid =>
          have := ih (killPid1 env w pid)
          rw [killPid1_ledger] at this
          simpa [killLoop, hp] using this

theorem killLoop_fst_events (env : HostEnv) (ls : List String) (w : World) :
    ∀ e ∈ (killLoop env ls w).1, ∃ p, e = Event.killPid p := by
  induction ls generalizing w with
  | nil => simp [killLoop]
  | cons line rest ih =>
      cases hp : parsePid line with
      | none => simp [killLoop, hp]
      | some pid =>
          intro e he
          simp only [killLoop, hp, List.mem_cons] at he
          rcases he with rfl | he
          · exact ⟨pid, rfl⟩
          · exact ih (killPid1 env w pid) e he

theorem killStale_of_no_ledger (env : HostEnv) {w : World} (h : w.ledger = none) :
    killStale env w
      = { world := (portPhase env w).1,
          trace := [Event.portReclaim, Event.sleep 1],
          err := none } := by
  unfold killStale
  rw [h]
  simp [portPhase_snd]

theorem killStale_of_ledger (env : HostEnv) {w : World} {ls : List String}
    (h : w.ledger = some ls) (hr : env.reapRemoveFails = false) :
    killStale env w
      = { world := (portPhase env { (killLoop env ls w).2 with ledger := none }).1,
          trace := (killLoop env ls w).1
                     ++ Event.removeLedger :: [Event.portReclaim, Event.sleep 1],
          err := none } := by
  unfold killStale
  rw [h]
  simp [hr, portPhase_snd]

theorem killStale_err_of_removeOk (env : HostEnv) (w : World)
    (hr : env.reapRemoveFails = false) : (killStale env w).err = none := by
  cases h : w.ledger with
  | none => rw [killStale_of_no_ledger env h]
  | some ls => rw [killStale_of_ledger env h hr]

theorem killStale_ledger_of_removeOk (env : HostEnv) (w : World)
    (hr : env.reapRemoveFails = false) : (killStale env w).world.ledger = none := by
  cases h : w.ledger with
  | none => rw [killStale_of_no_ledger env h]; simpa [portPhase_fst_ledger] using h
  | some ls =>
      rw [killStale_of_ledger env h hr]
      simp [portPhase_fst_ledger]

theorem killStale_trace_events (env : HostEnv) (w : World) :
    ∀ e ∈ (killStale env w).trace,
      (∃ p, e = Event.killPid p) ∨ e = Event.removeLedger ∨
        e = Event.portReclaim ∨ e = Event.sleep 1 := by
  intro e he
  cases h : w.ledger with
  | none =>
      rw [killStale_of_no_ledger env h] at he
      simp only [List.mem_cons, List.not_mem_nil, or_false] at he
      rcases he with rfl | rfl
      · exact Or.inr (Or.inr (Or.inl rfl))
      · exact Or.inr (Or.inr (Or.inr rfl))
  | some ls =>
      by_cases hr : env.reapRemoveFails
      · have htr : (killStale env w).trace = (killLoop env ls w).1 := by
          unfold killStale
          rw [h]
          simp [hr]
        rw [htr] at he
        exact Or.inl (killLoop_fst_events env ls w e he)
      · rw [killStale_of_ledger env h (by simpa using hr)] at he
        simp only [List.mem_append, List.mem_cons, List.not_mem_nil, or_false] at he
        rcases he with hk | rfl | rfl | rfl
        · exact Or.inl (killLoop_fst_events env ls w e hk)
        · exact Or.inr (Or.inl rfl)
        · exact Or.inr (Or.inr (Or.inl rfl))
        · exact Or.inr (Or.inr (Or.inr rfl))

end NennerLauncher

namespace NennerLauncher

theorem spawnPhase_ok (env : HostEnv) (w : World) {d m : Pid}
    (hd : env.dashboardPid = some d) (hm : env.monitorPid = some m) :
    spawnPhase env w
      = { world :=
            { w with
                alive := m :: d :: w.alive,
                ledger := some [toString d, toString m] },
          trace := [Event.openLog, Event.spawnEv .dashboard,
                    Event.spawnEv .monitor, Event.writeLedger],
          err := none } := by
  unfold spawnPhase
  rw [hd, hm]
  simp [savePids]

theorem spawnPhase_monitor_fail (env : HostEnv) (w : World) {d : Pid}
    (hd : env.dashboardPid = some d) (hm : env.monitorPid = none) :
    spawnPhase env w
      = { world := { w with alive := d :: w.alive },
          trace := [Event.openLog, Event.spawnEv .dashboard],
          err := some (.spawnErr .monitor) } := by
  unfold spawnPhase
  rw [hd, hm]

theorem startPhase_ok (env : HostEnv) {d m : Pid}
    (hd : env.dashboardPid = some d) (hm : env.monitorPid = some m)
    (hr : env.reapRemoveFails = false) :
    startPhase env
      = { world :=
            { (killStale env (initWorld env)).world with
                alive := m :: d :: (killStale env (initWorld env)).world.alive,
                ledger := some [toString d, toString m] },
          trace := (killStale env (initWorld env)).trace
                     ++ [Event.openLog, Event.spawnEv .dashboard,
                         Event.spawnEv .monitor, Event.writeLedger],
          err := none } := by
  unfold startPhase
  rw [seq_of_ok _ (killStale_err_of_removeOk env _ hr),
    spawnPhase_ok env _ hd hm]

theorem startPhase_monitor_fail (env : HostEnv) {d : Pid}
    (hd : env.dashboardPid = some d) (hm : env.monitorPid = none)
    (hr : env.reapRemoveFails = false) :
    startPhase env
      = { world :=
            { (killStale env (initWorld env)).world with
                alive := d :: (killStale env (initWorld env)).world.alive },
          trace := (killStale env (initWorld env)).trace
                     ++ [Event.openLog, Event.spawnEv .dashboard],
          err := some (.spawnErr .monitor) } := by
  unfold startPhase
  rw [seq_of_ok _ (killStale_err_of_removeOk env _ hr),
    spawnPhase_monitor_fail env _ hd hm]

theorem runScript_of_startErr (env : HostEnv) {e : PyErr}
    (h : (startPhase env).err = some e) : runScript env = startPhase env := by
  unfold runScript
  rw [seq_of_err readyPhase h, seq_of_err _ h]

theorem seq_assoc_ok {s : Step} (f g : World → Step) (h : s.err = none)
    (h2 : (f s.world).err = none) :
    (s.seq f).seq g
      = { world := (g (f s.world).world).world,
          trace := s.trace ++ ((f s.world).trace ++ (g (f s.world).world).trace),
          err := (g (f s.world).world).err } := by
  rw [seq_of_ok f h]
  rw [@seq_of_ok { world := (f s.world).world,
                   trace := s.trace ++ (f s.world).trace,
                   err := (f s.world).err } g h2]
  simp [List.append_assoc]

theorem runScript_ok_decomp (env : HostEnv) (h : (startPhase env).err = none) :
    runScript env
      = { world := (waitTeardown env (startPhase env).world).world,
          trace := (startPhase env).trace ++ Event.sleep 3 :: Event.browserOpen
                     :: (waitTeardown env (startPhase env).world).trace,
          err := (waitTeardown env (startPhase env).world).err } := by
  unfold runScript
  rw [seq_assoc_ok readyPhase (waitTeardown env) h rfl]
  simp [readyPhase]

theorem waitTeardown_err (env : HostEnv) (w : World) :
    (waitTeardown env w).err
      = if env.termFails then some .termErr
        else if env.closeFails then some .closeErr else none := by
  cases htf : env.termFails <;> cases hcf : env.closeFails <;>
    simp [waitTeardown, htf, hcf]

theorem waitTeardown_ledger (env : HostEnv) (w : World)
    (ht : env.termFails = false) (hc : env.closeFails = false)
    (hf : env.finalRemoveFails = false) :
    (waitTeardown env w).world.ledger = none := by
  simp [waitTeardown, ht, hc, hf]

theorem waitTeardown_trace (env : HostEnv) (w : World)
    (ht : env.termFails = false) (hc : env.closeFails = false) :
    (waitTeardown env w).trace
        = [Event.waitPrimary, Event.terminateReq .monitor, Event.closeLog]
      ∨ (waitTeardown env w).trace
        = [Event.waitPrimary, Event.terminateReq .monitor, Event.closeLog,
           Event.removeLedger] := by
  cases hf : env.finalRemoveFails
  · simp only [waitTeardown, ht, hc, hf]
    cases hl : (match env.monitorPid with
      | some m =>
          if env.monitorExits then
            { (match env.dashboardPid with
                | some d => { w with alive := w.alive.erase d }
                | none => w) with
              alive := (match env.dashboardPid with
                | some d => { w with alive := w.alive.erase d }
                | none => w).alive.erase m }
          else
            match env.dashboardPid with
            | some d => { w with alive := w.alive.erase d }
            | none => w
      | none =>
          match env.dashboardPid with
          | some d => { w with alive := w.alive.erase d }
          | none => w : World).ledger <;> simp
  · simp [waitTeardown, ht, hc, hf]

theorem waitTeardown_alive_monitor (env : HostEnv) (w : World) {d m : Pid}
    (hd : env.dashboardPid = some d) (hm : env.monitorPid = some m)
    (ht : env.termFails = false) (hme : env.monitorExits = false)
    (hc : env.closeFails = false) :
    (waitTeardown env w).world.alive = w.alive.erase d := by
  cases hf : env.finalRemoveFails <;>
    simp [waitTeardown, hd, hm, ht, hme, hc, hf]

end NennerLauncher

namespace NennerLauncher

theorem killStale_clean (env : HostEnv) {w : World}
    (h1 : w.ledger = none) (h2 : w.portOwner = none) :
    killStale env w
      = { world := w, trace := [Event.portReclaim, Event.sleep 1], err := none } := by
  rw [killStale_of_no_ledger env h1, portPhase_fst_of_no_owner env h2]

end NennerLauncher

namespace NennerLauncher

theorem killStale_no_writeLedger (env : HostEnv) (w : World) :
    Event.writeLedger ∉ (killStale env w).trace := by
  intro h
  rcases killStale_trace_events env w _ h with ⟨p, hp⟩ | hp | hp | hp <;> simp at hp

theorem killStale_no_browserOpen (env : HostEnv) (w : World) :
    Event.browserOpen ∉ (killStale env w).trace := by
  intro h
  rcases killStale_trace_events env w _ h with ⟨p, hp⟩ | hp | hp | hp <;> simp at hp

theorem killStale_no_sleep3 (env : HostEnv) (w : World) :
    Event.sleep 3 ∉ (killStale env w).trace := by
  intro h
  rcases killStale_trace_events env w _ h with ⟨p, hp⟩ | hp | hp | hp <;> simp at hp

theorem killStale_no_terminateReq (env : HostEnv) (w : World) (c : Child) :
    Event.terminateReq c ∉ (killStale env w).trace := by
  intro h
  rcases killStale_trace_events env w _ h with ⟨p, hp⟩ | hp | hp | hp <;> simp at hp

theorem mem_erase_cons_cons (m d : Pid) (x : List Pid) :
    m ∈ (m :: d :: x).erase d := by
  by_cases hmd : m = d
  · subst hmd
    simp [List.erase_cons]
  · simp [List.erase_cons, hmd]

/-- A benign host environment: no stale ledger, nothing already alive, port
free, every OS call succeeds; `Popen` yields PID 100 for the dashboard and
PID 200 for the monitor, and the dashboard later exits with status 0. -/
def benignEnv : HostEnv :=
  { ledger0 := none, stale := [], killFails := fun _ => false,
    portOwner0 := none, portCmdFails := false, reapRemoveFails := false,
    dashboardPid := some 100, monitorPid := some 200, waitStatus := 0,
    termFails := false, monitorExits := true, closeFails := false,
    finalRemoveFails := false }

end NennerLauncher

namespace NennerLauncher

/-- Claim C1 is false on the code: with the dashboard spawned as PID 100 and
the monitor spawn raising, `start()` aborts with the spawn error but PID 100
is still alive afterwards — no kill and no terminate request for it was ever
issued, so the first-spawned process IS left alive. -/
theorem c1_counterexample :
    (startPhase { benignEnv with monitorPid := none }).err
        = some (PyErr.spawnErr Child.monitor) ∧
    100 ∈ (startPhase { benignEnv with monitorPid := none }).world.alive ∧
    Event.killPid 100 ∉ (startPhase { benignEnv with monitorPid := none }).trace ∧
    Event.terminateReq Child.dashboard
        ∉ (startPhase { benignEnv with monitorPid := none }).trace := by
  decide

/-- Claim C1 (amended): when the second spawn (the monitor) fails, the spawn
error propagates out of `start()` (uncaught, so the supervisor exits with the
failure code 1) and the PID ledger is never written, but the already-spawned
dashboard is NOT terminated: it remains alive, left for the next session's
reaper. -/
theorem c1_no_rollback (env : HostEnv) (d : Pid)
    (hd : env.dashboardPid = some d) (hm : env.monitorPid = none)
    (hr : env.reapRemoveFails = false) :
    (startPhase env).err = some (PyErr.spawnErr Child.monitor) ∧
    d ∈ (startPhase env).world.alive ∧
    Event.writeLedger ∉ (startPhase env).trace ∧
    supervisorExit env = 1 := by
  have hsp := startPhase_monitor_fail env hd hm hr
  have herr : (startPhase env).err = some (PyErr.spawnErr Child.monitor) := by
    rw [hsp]
  refine ⟨herr, ?_, ?_, ?_⟩
  · rw [hsp]
    exact List.mem_cons_self _ _
  · rw [hsp]
    simp [killStale_no_writeLedger]
  · unfold supervisorExit
    rw [runScript_of_startErr env herr, herr]

/-- Witness for C1 (amended) at the concrete environment of the
counterexample. -/
theorem c1_no_rollback_witness :
    (startPhase { benignEnv with monitorPid := none }).err
        = some (PyErr.spawnErr Child.monitor) ∧
    100 ∈ (startPhase { benignEnv with monitorPid := none }).world.alive ∧
    Event.writeLedger ∉ (startPhase { benignEnv with monitorPid := none }).trace ∧
    supervisorExit { benignEnv with monitorPid := none } = 1 :=
  c1_no_rollback { benignEnv with monitorPid := none } 100 rfl rfl rfl

/-- Claim C2 is false on the code: in a session where the dashboard exits
with status 7 (obtained by `wait()`), the supervisor itself still exits 0 —
the status returned by `dashboard_proc.wait()` is discarded. -/
theorem c2_counterexample :
    primaryStatus { benignEnv with waitStatus := 7 } = some 7 ∧
    supervisorExit { benignEnv with waitStatus := 7 } = 0 ∧
    (supervisorExit { benignEnv with waitStatus := 7 } : Int) ≠ 7 := by
  decide

/-- Claim C2 (amended): the supervisor's exit code never reflects the
Primary child's exit status; it is 0 whenever the script runs to completion
(whatever `wait()` returned) and 1 exactly when an uncaught exception aborts
the script. -/
theorem c2_exit_code (env : HostEnv) :
    ((runScript env).err = none → supervisorExit env = 0) ∧
    (∀ e, (runScript env).err = some e → supervisorExit env = 1) := by
  constructor
  · intro h
    unfold supervisorExit
    rw [h]
  · intro e h
    unfold supervisorExit
    rw [h]

/-- Witness for C2 (amended): a completed session exits 0, an aborted one
exits 1. -/
theorem c2_exit_code_witness :
    supervisorExit benignEnv = 0 ∧
    supervisorExit { benignEnv with closeFails := true } = 1 :=
  ⟨(c2_exit_code benignEnv).1 (by decide),
   (c2_exit_code { benignEnv with closeFails := true }).2 PyErr.closeErr (by decide)⟩

end NennerLauncher

namespace NennerLauncher

/-- benignEnv, but a previous session left the ledger `["7"]` behind and
process 7 alive. -/
def staleEnv : HostEnv :=
  { benignEnv with ledger0 := some ["7"], stale := [7] }

/-- staleEnv, but every `os.kill` raises (e.g. permission denied). -/
def allKillsFailEnv : HostEnv :=
  { staleEnv with killFails := fun _ => true }

/-- Claim C4 is false on the code: with a ledger present and the host
refusing the `os.remove` at line 48 (which sits outside the `try`), the reap
propagates the error to its caller — and the whole session aborts with the
failure exit code. -/
theorem c4_counterexample :
    (killStale { benignEnv with ledger0 := some ["5"], reapRemoveFails := true }
        (initWorld { benignEnv with ledger0 := some ["5"], reapRemoveFails := true })).err
      = some PyErr.osRemoveErr ∧
    supervisorExit { benignEnv with ledger0 := some ["5"], reapRemoveFails := true } = 1 := by
  decide

/-- Claim C4 (amended): failures of the per-PID kills, of the ledger read,
and of the port-reclaim subprocess are swallowed — the reap completes
whenever the ledger removal does not fail (in particular whenever the ledger
is absent) — but a failing `os.remove` inside the reap propagates, as do a
failing `monitor_proc.terminate()` or `log_file.close()` inside the
teardown. -/
theorem c4_propagation (env : HostEnv) (w : World) :
    (env.reapRemoveFails = false → (killStale env w).err = none) ∧
    (w.ledger = none → (killStale env w).err = none) ∧
    (∀ ls, w.ledger = some ls → env.reapRemoveFails = true →
        (killStale env w).err = some PyErr.osRemoveErr) ∧
    (env.termFails = false → env.closeFails = false →
        (waitTeardown env w).err = none) ∧
    (env.termFails = true → (waitTeardown env w).err = some PyErr.termErr) ∧
    (env.termFails = false → env.closeFails = true →
        (waitTeardown env w).err = some PyErr.closeErr) := by
  refine ⟨killStale_err_of_removeOk env w, ?_, ?_, ?_, ?_, ?_⟩
  · intro h
    rw [killStale_of_no_ledger env h]
  · intro ls hl hrX
    unfold killStale
    rw [hl]
    simp [hrX]
  · intro ht hc
    rw [waitTeardown_err env w]
    simp [ht, hc]
  · intro ht
    rw [waitTeardown_err env w]
    simp [ht]
  · intro ht hc
    rw [waitTeardown_err env w]
    simp [ht, hc]

/-- Witness for C4 (amended): a benign reap returns no error; a failing
terminate in the teardown propagates. -/
theorem c4_propagation_witness :
    (killStale benignEnv (initWorld benignEnv)).err = none ∧
    (waitTeardown { benignEnv with termFails := true } (initWorld benignEnv)).err
      = some PyErr.termErr :=
  ⟨(c4_propagation benignEnv (initWorld benignEnv)).1 rfl,
   (c4_propagation { benignEnv with termFails := true }
      (initWorld benignEnv)).2.2.2.2.1 rfl⟩

/-- Claim C5 is false on the code: when the final `os.remove` fails, its
exception is swallowed (lines 109-112), so the session still completes a
clean shutdown — `wait()` returned and the teardown ran to its end — yet the
ledger remains on disk holding both PID records. -/
theorem c5_counterexample :
    (runScript { benignEnv with finalRemoveFails := true }).err = none ∧
    (runScript { benignEnv with finalRemoveFails := true }).world.ledger
      = some ["100", "200"] := by
  decide

/-- Claim C5 (amended): after a clean shutdown in which the final ledger
removal itself succeeded, the ledger is absent; a failed removal is
swallowed silently and can leave the populated ledger behind. -/
theorem c5_ledger_after_shutdown (env : HostEnv)
    (h : (runScript env).err = none) (hf : env.finalRemoveFails = false) :
    (runScript env).world.ledger = none := by
  cases hs : (startPhase env).err with
  | some e =>
      rw [runScript_of_startErr env hs, hs] at h
      exact Option.noConfusion h
  | none =>
      rw [runScript_ok_decomp env hs] at h ⊢
      dsimp only at h ⊢
      rw [waitTeardown_err env ((startPhase env).world)] at h
      cases ht : env.termFails with
      | true =>
          rw [ht] at h
          simp at h
      | false =>
          cases hc : env.closeFails with
          | true =>
              rw [ht, hc] at h
              simp at h
          | false => exact waitTeardown_ledger env _ ht hc hf

/-- Witness for C5 (amended) at the benign environment. -/
theorem c5_ledger_after_shutdown_witness :
    (runScript benignEnv).world.ledger = none :=
  c5_ledger_after_shutdown benignEnv (by decide) rfl

/-- Claim C6: whenever the ledger file exists at reap time (and the host
permits the removal itself), the ledger is removed immediately after the
per-PID termination step — for every ledger content, well-formed or not, and
every pattern of kill failures; the termination outcomes play no role in
whether clearing happens. -/
theorem c6_unconditional_clear (env : HostEnv) (w : World) (ls : List String)
    (hl : w.ledger = some ls) (hr : env.reapRemoveFails = false) :
    (killStale env w).world.ledger = none ∧
    ∃ kills, (killStale env w).trace
        = kills ++ Event.removeLedger :: [Event.portReclaim, Event.sleep 1]
      ∧ ∀ e ∈ kills, ∃ p, e = Event.killPid p := by
  refine ⟨killStale_ledger_of_removeOk env w hr,
    (killLoop env ls w).1, ?_, killLoop_fst_events env ls w⟩
  rw [killStale_of_ledger env hl hr]

/-- Witness for C6 at a host where every kill fails: the ledger is still
cleared. -/
theorem c6_unconditional_clear_witness :
    (killStale allKillsFailEnv (initWorld allKillsFailEnv)).world.ledger = none ∧
    ∃ kills, (killStale allKillsFailEnv (initWorld allKillsFailEnv)).trace
        = kills ++ Event.removeLedger :: [Event.portReclaim, Event.sleep 1]
      ∧ ∀ e ∈ kills, ∃ p, e = Event.killPid p :=
  c6_unconditional_clear allKillsFailEnv (initWorld allKillsFailEnv) ["7"] rfl rfl

/-- Claim C7: reaping is idempotent — a second `reap()` that observes an
absent ledger and no port owner leaves the world exactly as the first reap
left it, performs no termination and no ledger mutation (its trace is just
the port-reclaim command and the settle sleep), and raises nothing. -/
theorem c7_reap_idempotent (env1 env2 : HostEnv) (w : World)
    (h1 : (killStale env1 w).world.ledger = none)
    (h2 : (killStale env1 w).world.portOwner = none) :
    killStale env2 (killStale env1 w).world
      = { world := (killStale env1 w).world,
          trace := [Event.portReclaim, Event.sleep 1],
          err := none } :=
  killStale_clean env2 h1 h2

/-- Witness for C7: after reaping the stale session, a second reap is a
no-op on the state. -/
theorem c7_reap_idempotent_witness :
    killStale benignEnv (killStale staleEnv (initWorld staleEnv)).world
      = { world := (killStale staleEnv (initWorld staleEnv)).world,
          trace := [Event.portReclaim, Event.sleep 1],
          err := none } :=
  c7_reap_idempotent staleEnv benignEnv (initWorld staleEnv) (by decide) (by decide)

end NennerLauncher

namespace NennerLauncher

/-- Claim C8: in every session whose reap and spawns succeed, the fixed
settle delay (`time.sleep(3)`) is performed after both children are spawned
and immediately before the browser view is opened; no browser open occurs
before the settle delay has completed. -/
theorem c8_settle_before_browser (env : HostEnv) (d m : Pid)
    (hd : env.dashboardPid = some d) (hm : env.monitorPid = some m)
    (hr : env.reapRemoveFails = false) :
    ∃ pre post, (runScript env).trace
        = pre ++ Event.sleep 3 :: Event.browserOpen :: post ∧
      Event.spawnEv Child.dashboard ∈ pre ∧
      Event.spawnEv Child.monitor ∈ pre ∧
      Event.browserOpen ∉ pre ∧
      Event.sleep 3 ∉ pre := by
  have hs : (startPhase env).err = none := by rw [startPhase_ok env hd hm hr]
  refine ⟨(startPhase env).trace,
    (waitTeardown env (startPhase env).world).trace, ?_, ?_, ?_, ?_, ?_⟩
  · rw [runScript_ok_decomp env hs]
  · rw [startPhase_ok env hd hm hr]
    simp
  · rw [startPhase_ok env hd hm hr]
    simp
  · rw [startPhase_ok env hd hm hr]
    simp [killStale_no_browserOpen]
  · rw [startPhase_ok env hd hm hr]
    simp [killStale_no_sleep3]

/-- Witness for C8 at the benign environment. -/
theorem c8_settle_before_browser_witness :
    ∃ pre post, (runScript benignEnv).trace
        = pre ++ Event.sleep 3 :: Event.browserOpen :: post ∧
      Event.spawnEv Child.dashboard ∈ pre ∧
      Event.spawnEv Child.monitor ∈ pre ∧
      Event.browserOpen ∉ pre ∧
      Event.sleep 3 ∉ pre :=
  c8_settle_before_browser benignEnv 100 200 rfl rfl rfl

/-- Claim C9: after a successful `start()`, the ledger holds exactly the two
records written by `save_pids(dashboard_proc.pid, monitor_proc.pid)` — the
dashboard PID as the first newline-terminated record and the monitor PID as
the second. -/
theorem c9_ledger_two_records (env : HostEnv) (d m : Pid)
    (hd : env.dashboardPid = some d) (hm : env.monitorPid = some m)
    (hr : env.reapRemoveFails = false) :
    (startPhase env).err = none ∧
    (startPhase env).world.ledger = some (savePids [d, m]) ∧
    savePids [d, m] = [toString d, toString m] ∧
    (savePids [d, m]).length = 2 := by
  rw [startPhase_ok env hd hm hr]
  refine ⟨rfl, ?_, rfl, rfl⟩
  simp [savePids]

/-- Witness for C9 at the benign environment. -/
theorem c9_ledger_two_records_witness :
    (startPhase benignEnv).err = none ∧
    (startPhase benignEnv).world.ledger = some (savePids [100, 200]) ∧
    savePids [100, 200] = [toString 100, toString 200] ∧
    (savePids [100, 200]).length = 2 :=
  c9_ledger_two_records benignEnv 100 200 rfl rfl rfl

/-- Claim C10: in every session that reaches the teardown, exactly one
terminate request is sent to the monitor, and `shutdown()` completing does
not imply the monitor exited: if the monitor ignores the request the script
still runs to completion with the monitor alive. -/
theorem c10_single_terminate (env : HostEnv) (d m : Pid)
    (hd : env.dashboardPid = some d) (hm : env.monitorPid = some m)
    (hr : env.reapRemoveFails = false) (ht : env.termFails = false)
    (hc : env.closeFails = false) :
    (runScript env).trace.count (Event.terminateReq Child.monitor) = 1 ∧
    (env.monitorExits = false →
        (runScript env).err = none ∧ m ∈ (runScript env).world.alive) := by
  have hs : (startPhase env).err = none := by rw [startPhase_ok env hd hm hr]
  constructor
  · rw [runScript_ok_decomp env hs]
    dsimp only
    rw [List.count_append]
    have h1 : (startPhase env).trace.count (Event.terminateReq Child.monitor) = 0 := by
      rw [startPhase_ok env hd hm hr]
      dsimp only
      rw [List.count_append,
        List.count_eq_zero.mpr (killStale_no_terminateReq env (initWorld env) Child.monitor)]
      decide
    rw [h1]
    rcases waitTeardown_trace env ((startPhase env).world) ht hc with htd | htd <;>
      rw [htd] <;> decide
  · intro hme
    constructor
    · rw [runScript_ok_decomp env hs]
      dsimp only
      rw [waitTeardown_err env ((startPhase env).world)]
      simp [ht, hc]
    · rw [runScript_ok_decomp env hs]
      dsimp only
      rw [waitTeardown_alive_monitor env ((startPhase env).world) hd hm ht hme hc]
      rw [startPhase_ok env hd hm hr]
      dsimp only
      exact mem_erase_cons_cons m d _

/-- Witness for C10: with the monitor ignoring the request, the script
completes, PID 200 stays alive, and exactly one terminate request was
sent. -/
theorem c10_single_terminate_witness :
    (runScript { benignEnv with monitorExits := false }).trace.count
        (Event.terminateReq Child.monitor) = 1 ∧
    ((runScript { benignEnv with monitorExits := false }).err = none ∧
      200 ∈ (runScript { benignEnv with monitorExits := false }).world.alive) :=
  ⟨(c10_single_terminate { benignEnv with monitorExits := false }
      100 200 rfl rfl rfl rfl rfl).1,
   (c10_single_terminate { benignEnv with monitorExits := false }
      100 200 rfl rfl rfl rfl rfl).2 rfl⟩

end NennerLauncher
